import Mathlib

/-!
Verification of the Halborn CTF repository (NEAR staking contract, NEAR
fungible-token contract, Substrate pause pallet, Solana game program) against
its natural-language specification.  Contract state is embedded shallowly:
maps become functions into Option, u128 values become Nat with explicit
saturation at U128MAX where the source uses saturating arithmetic, and
host panics become Option / Except failures.
-/

/-- The largest value representable by a 128-bit unsigned integer. -/
def U128MAX : Nat := 2 ^ 128 - 1

/-- The saturating_add operation of u128, on its Nat embedding. -/
def satAdd (a b : Nat) : Nat := min (a + b) U128MAX

/-- The saturating_sub operation of u128; truncated Nat subtraction already
saturates at zero. -/
def satSub (a b : Nat) : Nat := a - b

namespace Staking

/-- State of the NEAR StakingContract: a map from account id to staked
balance and the running total.  Account ids are embedded as Nat. -/
structure StakingContract where
  stake_balances : Nat → Option Nat
  total_staked : Nat

/-- The stake entry point.  The caller attaches a deposit; the contract adds
it (saturating) to the caller's recorded balance, creating the entry if
absent, adds it (saturating) to total_staked, and returns the new balance. -/
def stake (s : StakingContract) (user : Nat) (deposit : Nat) :
    StakingContract × Nat :=
  match s.stake_balances user with
  | some balance =>
    let new_balance := satAdd balance deposit
    ({ stake_balances := fun a => if a = user then some new_balance else s.stake_balances a,
       total_staked := satAdd s.total_staked deposit }, new_balance)
  | none =>
    let new_balance := deposit
    ({ stake_balances := fun a => if a = user then some new_balance else s.stake_balances a,
       total_staked := satAdd s.total_staked deposit }, new_balance)

/-- The unstake entry point.  Panics (None) when amount is zero.  With a
recorded balance, it stores balance saturating-minus amount, subtracts amount
(saturating) from total_staked, transfers the old balance when the new
balance is zero and otherwise transfers amount, and returns true.  Without a
recorded balance it returns false and transfers nothing.  The result triple
is (new state, returned Bool, yoctoNEAR transferred to the caller). -/
def unstake (s : StakingContract) (user : Nat) (amount : Nat) :
    Option (StakingContract × Bool × Nat) :=
  if 0 < amount then
    match s.stake_balances user with
    | some balance =>
      let new_balance := satSub balance amount
      let s1 : StakingContract :=
        { stake_balances := fun a => if a = user then some new_balance else s.stake_balances a,
          total_staked := satSub s.total_staked amount }
      if new_balance = 0 then some (s1, true, balance) else some (s1, true, amount)
    | none => some (s, false, 0)
  else none

/-- A concrete staking state: account 1 has 10 yoctoNEAR staked and
total_staked is 10. -/
def cexS : StakingContract :=
  { stake_balances := fun a => if a = 1 then some 10 else none
    total_staked := 10 }

/-- A concrete staking state whose single balance sits at the u128 maximum. -/
def maxS : StakingContract :=
  { stake_balances := fun a => if a = 1 then some U128MAX else none
    total_staked := 0 }

end Staking

namespace Malborn

/-- Operational status of MalbornClubContract. -/
inductive ContractStatus where
  | Working
  | Paused
  deriving DecidableEq

/-- Blocklist entry status. -/
inductive BlocklistStatus where
  | Allowed
  | Banned
  deriving DecidableEq

/-- The NEP-148 token metadata carried by the contract. -/
structure FungibleTokenMetadata where
  spec : String
  name : String
  symbol : String
  icon : Option String
  reference : Option String
  reference_hash : Option String
  decimals : Nat

/-- The near-contract-standards FungibleToken core state: the registered
accounts map and the total supply. -/
structure FungibleToken where
  accounts : Nat → Option Nat
  total_supply : Nat

/-- Full state of MalbornClubContract. -/
structure MalbornClubContract where
  owner_id : Nat
  malborn_token : FungibleToken
  token_metadata : Option FungibleTokenMetadata
  block_list : Nat → Option BlocklistStatus
  status : ContractStatus
  associated_contract_account_id : Option Nat
  registration_fee_denominator : Nat

/-- UnorderedMap-style insert on the accounts map. -/
def tokenInsert (t : FungibleToken) (a v : Nat) : FungibleToken :=
  { t with accounts := fun x => if x = a then some v else t.accounts x }

/-- The metadata installed by the initializer. -/
def malbornMetadata : FungibleTokenMetadata :=
  { spec := "ft-1.0.0"
    name := "Malborn Token"
    symbol := "MAL"
    icon := none
    reference := none
    reference_hash := none
    decimals := 10 }

/-- The init entry point: registers the owner and deposits the whole initial
supply to it, status Working, default registration fee denominator 10000. -/
def new (owner_id : Nat) (token_total_supply : Nat) : MalbornClubContract :=
  { owner_id := owner_id
    malborn_token :=
      { accounts := fun x => if x = owner_id then some token_total_supply else none
        total_supply := token_total_supply }
    token_metadata := some malbornMetadata
    block_list := fun _ => none
    status := ContractStatus.Working
    associated_contract_account_id := none
    registration_fee_denominator := 10000 }

/-- mint_tokens: owner-only, not while paused; total_supply grows by amount
(checked add, panic on u128 overflow); the target balance grows only when the
account is already registered; returns the new total_supply. -/
def mint_tokens (s : MalbornClubContract) (signer account_id amount : Nat) :
    Option (MalbornClubContract × Nat) :=
  if signer ≠ s.owner_id then none
  else if s.status = ContractStatus.Paused then none
  else if U128MAX < s.malborn_token.total_supply + amount then none
  else
    let ts := s.malborn_token.total_supply + amount
    match s.malborn_token.accounts account_id with
    | some user_amount =>
      if U128MAX < user_amount + amount then none
      else some ({ s with malborn_token :=
        { tokenInsert s.malborn_token account_id (user_amount + amount) with
            total_supply := ts } }, ts)
    | none =>
      some ({ s with malborn_token := { s.malborn_token with total_supply := ts } }, ts)

/-- burn_tokens_internal: asserts total_supply is at least amount, that the
account is registered, and that its balance is at least amount; then
subtracts amount from both the total supply and the account balance. -/
def burn_tokens_internal (s : MalbornClubContract) (account_id amount : Nat) :
    Option MalbornClubContract :=
  if s.malborn_token.total_supply < amount then none
  else
    match s.malborn_token.accounts account_id with
    | none => none
    | some user_balance =>
      if user_balance < amount then none
      else some { s with malborn_token :=
        { tokenInsert s.malborn_token account_id (user_balance - amount) with
            total_supply := s.malborn_token.total_supply - amount } }

/-- burn_tokens: owner-only, not while paused, then burn_tokens_internal. -/
def burn_tokens (s : MalbornClubContract) (signer account_id amount : Nat) :
    Option MalbornClubContract :=
  if signer ≠ s.owner_id then none
  else if s.status = ContractStatus.Paused then none
  else burn_tokens_internal s account_id amount

/-- register_for_event: not while paused, requires the associated contract to
be set, the signer not banned, then burns total_supply / denominator from the
signer (u128 division panics when the denominator is zero) and fires the
cross-contract promise (no local state effect). -/
def register_for_event (s : MalbornClubContract) (signer : Nat) :
    Option MalbornClubContract :=
  if s.status = ContractStatus.Paused then none
  else if s.associated_contract_account_id = none then none
  else if (s.block_list signer).getD BlocklistStatus.Allowed = BlocklistStatus.Banned then none
  else if s.registration_fee_denominator = 0 then none
  else burn_tokens_internal s signer
    (s.malborn_token.total_supply / s.registration_fee_denominator)

/-- upgrade_token_name_symbol: owner-only; takes the metadata and, when it
was present, writes it back with the new name and symbol. -/
def upgrade_token_name_symbol (s : MalbornClubContract) (signer : Nat)
    (name symbol : String) : Option MalbornClubContract :=
  if signer ≠ s.owner_id then none
  else
    match s.token_metadata with
    | none => some { s with token_metadata := none }
    | some m => some { s with token_metadata := some { m with name := name, symbol := symbol } }

/-- add_to_blocklist: owner-only, not while paused. -/
def add_to_blocklist (s : MalbornClubContract) (signer account_id : Nat) :
    Option MalbornClubContract :=
  if signer ≠ s.owner_id then none
  else if s.status = ContractStatus.Paused then none
  else some { s with block_list :=
    fun x => if x = account_id then some BlocklistStatus.Banned else s.block_list x }

/-- remove_from_blocklist: owner-only, not while paused. -/
def remove_from_blocklist (s : MalbornClubContract) (signer account_id : Nat) :
    Option MalbornClubContract :=
  if signer ≠ s.owner_id then none
  else if s.status = ContractStatus.Paused then none
  else some { s with block_list :=
    fun x => if x = account_id then some BlocklistStatus.Allowed else s.block_list x }

/-- pause: owner-only; sets status to Paused. -/
def pause (s : MalbornClubContract) (signer : Nat) : Option MalbornClubContract :=
  if signer ≠ s.owner_id then none
  else some { s with status := ContractStatus.Paused }

/-- resume: owner-only; the source sets status to Paused (not Working). -/
def resume (s : MalbornClubContract) (signer : Nat) : Option MalbornClubContract :=
  if signer ≠ s.owner_id then none
  else some { s with status := ContractStatus.Paused }

/-- set_owner: owner-only. -/
def set_owner (s : MalbornClubContract) (signer new_owner : Nat) :
    Option MalbornClubContract :=
  if signer ≠ s.owner_id then none
  else some { s with owner_id := new_owner }

/-- set_registration_fee_denominator: owner-only. -/
def set_registration_fee_denominator (s : MalbornClubContract)
    (signer new_denominator : Nat) : Option MalbornClubContract :=
  if signer ≠ s.owner_id then none
  else some { s with registration_fee_denominator := new_denominator }

/-- set_associated_contract: owner-only. -/
def set_associated_contract (s : MalbornClubContract) (signer account_id : Nat) :
    Option MalbornClubContract :=
  if signer ≠ s.owner_id then none
  else some { s with associated_contract_account_id := some account_id }

/-- get_symbol: not while paused; takes the metadata out of storage (leaving
None behind) and returns its symbol, panicking when it was absent. -/
def get_symbol (s : MalbornClubContract) : Option (MalbornClubContract × String) :=
  if s.status = ContractStatus.Paused then none
  else
    match s.token_metadata with
    | none => none
    | some m => some ({ s with token_metadata := none }, m.symbol)

/-- get_name: same take-without-replace pattern as get_symbol. -/
def get_name (s : MalbornClubContract) : Option (MalbornClubContract × String) :=
  if s.status = ContractStatus.Paused then none
  else
    match s.token_metadata with
    | none => none
    | some m => some ({ s with token_metadata := none }, m.name)

/-- get_decimals: same take-without-replace pattern as get_symbol. -/
def get_decimals (s : MalbornClubContract) : Option (MalbornClubContract × Nat) :=
  if s.status = ContractStatus.Paused then none
  else
    match s.token_metadata with
    | none => none
    | some m => some ({ s with token_metadata := none }, m.decimals)

/-- contract_status view. -/
def contract_status (s : MalbornClubContract) : ContractStatus := s.status

/-- get_blocklist_status: not while paused; defaults to Allowed. -/
def get_blocklist_status (s : MalbornClubContract) (account_id : Nat) :
    Option BlocklistStatus :=
  if s.status = ContractStatus.Paused then none
  else some ((s.block_list account_id).getD BlocklistStatus.Allowed)

/-- Library internal_withdraw: the account must be registered with at least
amt; subtracts amt from its balance. -/
def internal_withdraw (t : FungibleToken) (a amt : Nat) : Option FungibleToken :=
  match t.accounts a with
  | none => none
  | some b => if b < amt then none else some (tokenInsert t a (b - amt))

/-- Library internal_deposit: the account must be registered; adds amt to its
balance with a checked add. -/
def internal_deposit (t : FungibleToken) (a amt : Nat) : Option FungibleToken :=
  match t.accounts a with
  | none => none
  | some b => if U128MAX < b + amt then none else some (tokenInsert t a (b + amt))

/-- Library internal_transfer: sender and receiver must differ, the amount
must be positive; withdraw from the sender then deposit to the receiver. -/
def internal_transfer (t : FungibleToken) (sender receiver amt : Nat) :
    Option FungibleToken :=
  if sender = receiver then none
  else if amt = 0 then none
  else (internal_withdraw t sender amt).bind fun t1 => internal_deposit t1 receiver amt

/-- ft_transfer: not while paused, sender not banned, amount bounded by the
sender's balance, then the library transfer. -/
def ft_transfer (s : MalbornClubContract) (sender receiver amount : Nat) :
    Option MalbornClubContract :=
  if s.status = ContractStatus.Paused then none
  else if (s.block_list sender).getD BlocklistStatus.Allowed = BlocklistStatus.Banned then none
  else if (s.malborn_token.accounts sender).getD 0 < amount then none
  else (internal_transfer s.malborn_token sender receiver amount).map
    fun t => { s with malborn_token := t }

/-- ft_transfer_call: not while paused, sender not banned, then the library
transfer followed by the cross-contract promise (no further local effect). -/
def ft_transfer_call (s : MalbornClubContract) (sender receiver amount : Nat) :
    Option MalbornClubContract :=
  if s.status = ContractStatus.Paused then none
  else if (s.block_list sender).getD BlocklistStatus.Allowed = BlocklistStatus.Banned then none
  else (internal_transfer s.malborn_token sender receiver amount).map
    fun t => { s with malborn_token := t }

/-- ft_total_supply view: not while paused. -/
def ft_total_supply (s : MalbornClubContract) : Option Nat :=
  if s.status = ContractStatus.Paused then none
  else some s.malborn_token.total_supply

/-- ft_balance_of view: not while paused; 0 for unregistered accounts. -/
def ft_balance_of (s : MalbornClubContract) (account_id : Nat) : Option Nat :=
  if s.status = ContractStatus.Paused then none
  else some ((s.malborn_token.accounts account_id).getD 0)

/-- ft_metadata view: unwraps the stored metadata, panicking when absent. -/
def ft_metadata (s : MalbornClubContract) : Option FungibleTokenMetadata :=
  s.token_metadata

/-- Library internal_ft_resolve_transfer: refunds to the sender the unused
part of a transfer-call, capped by the receiver's current balance; when the
sender is unregistered the refund is burned from the total supply. -/
def ft_resolve_transfer (s : MalbornClubContract)
    (sender receiver amount unused : Nat) : MalbornClubContract :=
  let u := min amount unused
  let rb := (s.malborn_token.accounts receiver).getD 0
  let refund := min rb u
  match s.malborn_token.accounts sender with
  | some sb =>
    { s with malborn_token :=
        tokenInsert (tokenInsert s.malborn_token receiver (rb - refund)) sender (sb + refund) }
  | none =>
    { s with malborn_token :=
        { tokenInsert s.malborn_token receiver (rb - refund) with
            total_supply := s.malborn_token.total_supply - refund } }

/-- Library storage_deposit: registers the account with a zero balance when
it is not yet registered. -/
def storage_deposit (s : MalbornClubContract) (account_id : Nat) :
    MalbornClubContract :=
  match s.malborn_token.accounts account_id with
  | some _ => s
  | none => { s with malborn_token := tokenInsert s.malborn_token account_id 0 }

/-- Library storage_unregister: removes a registered account, burning its
remaining balance when force is set; a nonzero balance without force panics. -/
def storage_unregister (s : MalbornClubContract) (account_id : Nat)
    (force : Bool) : Option (MalbornClubContract × Bool) :=
  match s.malborn_token.accounts account_id with
  | none => some (s, false)
  | some b =>
    if b = 0 || force then
      some ({ s with malborn_token :=
        { accounts := fun x => if x = account_id then none else s.malborn_token.accounts x
          total_supply := s.malborn_token.total_supply - b } }, true)
    else none

/-- One successful call to any state-mutating entry point of the contract. -/
inductive Step : MalbornClubContract → MalbornClubContract → Prop where
  | mint_step {s s' : MalbornClubContract} (signer account_id amount ret : Nat)
      (h : mint_tokens s signer account_id amount = some (s', ret)) : Step s s'
  | burn_step {s s' : MalbornClubContract} (signer account_id amount : Nat)
      (h : burn_tokens s signer account_id amount = some s') : Step s s'
  | register_step {s s' : MalbornClubContract} (signer : Nat)
      (h : register_for_event s signer = some s') : Step s s'
  | upgrade_step {s s' : MalbornClubContract} (signer : Nat) (name symbol : String)
      (h : upgrade_token_name_symbol s signer name symbol = some s') : Step s s'
  | add_blocklist_step {s s' : MalbornClubContract} (signer account_id : Nat)
      (h : add_to_blocklist s signer account_id = some s') : Step s s'
  | remove_blocklist_step {s s' : MalbornClubContract} (signer account_id : Nat)
      (h : remove_from_blocklist s signer account_id = some s') : Step s s'
  | pause_step {s s' : MalbornClubContract} (signer : Nat)
      (h : pause s signer = some s') : Step s s'
  | resume_step {s s' : MalbornClubContract} (signer : Nat)
      (h : resume s signer = some s') : Step s s'
  | set_owner_step {s s' : MalbornClubContract} (signer new_owner : Nat)
      (h : set_owner s signer new_owner = some s') : Step s s'
  | set_denominator_step {s s' : MalbornClubContract} (signer d : Nat)
      (h : set_registration_fee_denominator s signer d = some s') : Step s s'
  | set_associated_step {s s' : MalbornClubContract} (signer account_id : Nat)
      (h : set_associated_contract s signer account_id = some s') : Step s s'
  | get_symbol_step {s s' : MalbornClubContract} (r : String)
      (h : get_symbol s = some (s', r)) : Step s s'
  | get_name_step {s s' : MalbornClubContract} (r : String)
      (h : get_name s = some (s', r)) : Step s s'
  | get_decimals_step {s s' : MalbornClubContract} (r : Nat)
      (h : get_decimals s = some (s', r)) : Step s s'
  | ft_transfer_step {s s' : MalbornClubContract} (sender receiver amount : Nat)
      (h : ft_transfer s sender receiver amount = some s') : Step s s'
  | ft_transfer_call_step {s s' : MalbornClubContract} (sender receiver amount : Nat)
      (h : ft_transfer_call s sender receiver amount = some s') : Step s s'
  | ft_resolve_step {s s' : MalbornClubContract} (sender receiver amount unused : Nat)
      (h : ft_resolve_transfer s sender receiver amount unused = s') : Step s s'
  | storage_deposit_step {s s' : MalbornClubContract} (account_id : Nat)
      (h : storage_deposit s account_id = s') : Step s s'
  | storage_unregister_step {s s' : MalbornClubContract} (account_id : Nat)
      (force r : Bool)
      (h : storage_unregister s account_id force = some (s', r)) : Step s s'

/-- A concrete freshly initialized contract owned by account 2. -/
def sampleClub : MalbornClubContract := new 2 1000000000

/-- The sample contract after a successful pause. -/
def pausedClub : MalbornClubContract := { sampleClub with status := ContractStatus.Paused }

/-- The sample contract after the owner mints 5 tokens to the unregistered
account 7. -/
def mintedClub : MalbornClubContract :=
  { sampleClub with malborn_token :=
      { sampleClub.malborn_token with total_supply := 1000000005 } }

/-- The sample contract after the owner burns 5 of its own tokens. -/
def burnedClub : MalbornClubContract :=
  { sampleClub with malborn_token :=
      { tokenInsert sampleClub.malborn_token 2 999999995 with total_supply := 999999995 } }

end Malborn

namespace PausePallet

/-- Dispatch origin of an extrinsic in the mock runtime: root or a signed
account (account ids are u64, embedded as Nat). -/
inductive PalletOrigin where
  | Root
  | Signed (who : Nat)
  deriving DecidableEq

/-- Storage of the pause pallet: the Paused boolean ValueQuery item, whose
default is false. -/
structure PauseState where
  paused : Bool
  deriving DecidableEq

/-- Modelled from the spec: the origin check of the pause pallet's
extrinsics.  The pallet source is not under src; its tests configure
PauseOrigin as EnsureSignedBy of the Admin account 1, and the extrinsics
also accept Root (root_pause and toggle succeed from Root, a plain signed
origin fails with BadOrigin). -/
def isAuthorized : PalletOrigin → Bool
  | PalletOrigin.Root => true
  | PalletOrigin.Signed who => who == 1

/-- Modelled from the spec: the pause extrinsic.  The pallet source is not
under src; the tests show a successful pause leaves Paused equal to true. -/
def pause (o : PalletOrigin) (_s : PauseState) : Option PauseState :=
  if isAuthorized o then some { paused := true } else none

/-- Modelled from the spec: the unpause extrinsic.  The pallet source is not
under src; the spec and the unpause_bug_does_not_unpause test state that it
writes back the current value of Paused instead of false. -/
def unpause (o : PalletOrigin) (s : PauseState) : Option PauseState :=
  if isAuthorized o then some { paused := s.paused } else none

/-- Modelled from the spec: the toggle extrinsic.  The pallet source is not
under src; the spec and the toggle_bug_does_not_toggle test state that it
writes back the current value of Paused instead of its negation. -/
def toggle (o : PalletOrigin) (s : PauseState) : Option PauseState :=
  if isAuthorized o then some { paused := s.paused } else none

end PausePallet

namespace Game

/-- Modelled from the spec: the level-credit curve loop of the Solana game's
user_level_up instruction.  The program source is not under src; the loop is
reconstructed from the integration test's documented trace: starting from
iterator = 0 and next_level_credits = 0, while next_level_credits is below
credits_to_burn the loop saves next_level_credits as level_credits,
increments the iterator and adds iterator * credits_per_level to
next_level_credits.  The recursion is fuel-based; credits_to_burn + 1 units
of fuel suffice whenever credits_per_level is positive. -/
def levelCreditsAux (credits_to_burn credits_per_level : Nat) :
    Nat → Nat → Nat → Nat → Nat
  | 0, _, _, level_credits => level_credits
  | fuel + 1, iterator, next_level_credits, level_credits =>
    if next_level_credits < credits_to_burn then
      levelCreditsAux credits_to_burn credits_per_level fuel (iterator + 1)
        (next_level_credits + (iterator + 1) * credits_per_level) next_level_credits
    else level_credits

/-- Modelled from the spec: the level_credits value user_level_up computes
from credits_to_burn and credits_per_level (program source not under src). -/
def level_credits (credits_to_burn credits_per_level : Nat) : Nat :=
  levelCreditsAux credits_to_burn credits_per_level (credits_to_burn + 1) 0 0 0

/-- Failure modes of user_level_up distinguished by the claim: the arithmetic
underflow of the unchecked subtraction versus an insufficient-credits
rejection by a balance check. -/
inductive LevelUpError where
  | IntegerUnderflow
  | InsufficientCredits
  deriving DecidableEq

/-- Checked u32 subtraction: Rust overflow checks abort the transaction when
the subtrahend exceeds the minuend. -/
def checkedSub (a b : Nat) : Option Nat := if b ≤ a then some (a - b) else none

/-- Modelled from the spec: the user_level_up instruction (program source not
under src).  Per the spec and the integration tests, the user's credit
balance is decremented by level_credits FIRST, and only afterwards is the
balance validated, so an insufficient balance surfaces as an integer
underflow of the subtraction rather than as a rejection by a prior check.
Returns the user's new credit balance. -/
def user_level_up (credits credits_to_burn credits_per_level : Nat) :
    Except LevelUpError Nat :=
  let lc := level_credits credits_to_burn credits_per_level
  match checkedSub credits lc with
  | none => Except.error LevelUpError.IntegerUnderflow
  | some newCredits =>
    if credits < lc then Except.error LevelUpError.InsufficientCredits
    else Except.ok newCredits

end Game

namespace Staking

/-- Claim C1: for every caller with a recorded stake balance B and every
requested amount A > 0, unstake transfers the old balance B back to the
caller when the new balance (B saturating-minus A) is zero and transfers the
requested amount A otherwise; in particular a caller requesting A > B
receives B, not A. -/
theorem unstake_refund_inconsistency (s : StakingContract) (user B A : Nat)
    (hB : s.stake_balances user = some B) (hA : 0 < A) :
    unstake s user A =
      some ({ stake_balances := fun a => if a = user then some (satSub B A) else s.stake_balances a,
              total_staked := satSub s.total_staked A }, true,
            if satSub B A = 0 then B else A) ∧
    (B < A → (if satSub B A = 0 then B else A) = B ∧ B ≠ A) := by
  constructor
  · simp only [unstake, if_pos hA, hB]
    by_cases h : satSub B A = 0 <;> simp [h]
  · intro hBA
    have h0 : satSub B A = 0 := Nat.sub_eq_zero_of_le (Nat.le_of_lt hBA)
    simp only [h0, if_pos rfl]
    exact ⟨rfl, Nat.ne_of_lt hBA⟩

/-- Witness for C1 at the concrete state cexS, caller 1, balance 10,
requested amount 100. -/
theorem unstake_refund_inconsistency_witness :
    (if satSub 10 100 = 0 then 10 else 100) = 10 ∧ 10 ≠ 100 :=
  (unstake_refund_inconsistency cexS 1 10 100 rfl (by decide)).2 (by decide)

/-- Claim C2 counterexample: in state cexS (balance 10, total_staked 10),
unstake of 100 leaves total_staked 0 and the balance 0, while the claim's
arithmetic would require total_staked to decrease by 100 and the balance to
become 10 - 100 = -90; and stake at the u128 maximum returns the saturated
value rather than the claimed previous-plus-deposit sum. -/
theorem trivial_bookkeeping_counterexample :
    ((unstake cexS 1 100).map fun r => (r.1.total_staked, r.1.stake_balances 1)) =
      some (0, some 0) ∧
    ¬((0 : Int) = (10 : Int) - 100) ∧
    (stake maxS 1 1).2 = U128MAX ∧ ¬(U128MAX = U128MAX + 1) := by
  refine ⟨rfl, by decide, rfl, by omega⟩

/-- Claim C2 (amended): the bookkeeping is saturating u128 arithmetic, so
the claimed identities hold exactly in the absence of saturation: stake sets
the caller's balance to its previous value (0 if absent) plus the deposit,
adds the deposit to total_staked and returns the new balance whenever those
sums stay within u128; and unstake with amount A sets a recorded balance B
to B - A and decreases total_staked by exactly A whenever A ≤ B and
A ≤ total_staked. -/
theorem trivial_bookkeeping_amended (s : StakingContract) (user d B A : Nat) :
    ((s.stake_balances user).getD 0 + d ≤ U128MAX → s.total_staked + d ≤ U128MAX →
      (stake s user d).2 = (s.stake_balances user).getD 0 + d ∧
      (stake s user d).1.stake_balances user = some ((s.stake_balances user).getD 0 + d) ∧
      (stake s user d).1.total_staked = s.total_staked + d) ∧
    (s.stake_balances user = some B → 0 < A → A ≤ B → A ≤ s.total_staked →
      ∃ s1 r, unstake s user A = some (s1, true, r) ∧
        s1.stake_balances user = some (B - A) ∧
        s1.total_staked + A = s.total_staked) := by
  constructor
  · intro h1 h2
    cases hsb : s.stake_balances user with
    | some b =>
      rw [hsb] at h1
      simp only [hsb, Option.getD_some] at h1 ⊢
      simp [stake, hsb, satAdd, Nat.min_eq_left h1, Nat.min_eq_left h2]
    | none =>
      rw [hsb] at h1
      simp only [hsb, Option.getD_none] at h1 ⊢
      simp [stake, hsb, satAdd, Nat.min_eq_left h2]
  · intro hB hA hAB hAT
    refine ⟨{ stake_balances := fun a => if a = user then some (satSub B A) else s.stake_balances a,
              total_staked := satSub s.total_staked A },
            if satSub B A = 0 then B else A, ?_, ?_, ?_⟩
    · simp only [unstake, if_pos hA, hB]
      by_cases h : satSub B A = 0 <;> simp [h]
    · simp [satSub]
    · simpa [satSub] using Nat.sub_add_cancel hAT

/-- Witness for the amended C2 at the concrete state cexS: a stake of 5 by
caller 1 and an unstake of 10 by caller 1. -/
theorem trivial_bookkeeping_amended_witness :
    ((stake cexS 1 5).2 = (cexS.stake_balances 1).getD 0 + 5 ∧
     (stake cexS 1 5).1.stake_balances 1 = some ((cexS.stake_balances 1).getD 0 + 5) ∧
     (stake cexS 1 5).1.total_staked = cexS.total_staked + 5) ∧
    (∃ s1 r, unstake cexS 1 10 = some (s1, true, r) ∧
      s1.stake_balances 1 = some (10 - 10) ∧ s1.total_staked + 10 = cexS.total_staked) :=
  ⟨(trivial_bookkeeping_amended cexS 1 5 10 10).1 (by decide) (by decide),
   (trivial_bookkeeping_amended cexS 1 5 10 10).2 rfl (by decide) (by decide) (by decide)⟩

/-- Claim C9: unstake panics exactly when the requested amount is zero; for
every nonzero amount it returns true when the caller has an entry in
stake_balances, and returns false with stake_balances and total_staked
completely unchanged when the caller has no entry. -/
theorem unstake_error_handling (s : StakingContract) (user A : Nat) :
    (unstake s user A = none ↔ A = 0) ∧
    (0 < A → ∀ B, s.stake_balances user = some B →
      ∃ s1 r, unstake s user A = some (s1, true, r)) ∧
    (0 < A → s.stake_balances user = none → unstake s user A = some (s, false, 0)) := by
  refine ⟨?_, ?_, ?_⟩
  · constructor
    · intro h
      by_contra hA
      have hA' : 0 < A := Nat.pos_of_ne_zero hA
      simp only [unstake, if_pos hA'] at h
      cases hsb : s.stake_balances user with
      | some b =>
        rw [hsb] at h
        by_cases h0 : satSub b A = 0 <;> simp [h0] at h
      | none => rw [hsb] at h; exact Option.noConfusion h
    · intro h
      subst h
      simp [unstake]
  · intro hA B hB
    refine ⟨{ stake_balances := fun a => if a = user then some (satSub B A) else s.stake_balances a,
              total_staked := satSub s.total_staked A },
            if satSub B A = 0 then B else A, ?_⟩
    simp only [unstake, if_pos hA, hB]
    by_cases h : satSub B A = 0 <;> simp [h]
  · intro hA hB
    simp [unstake, if_pos hA, hB]

/-- Witness for C9 at the concrete state cexS: amount 7 for recorded caller
1 and for unrecorded caller 2. -/
theorem unstake_error_handling_witness :
    (unstake cexS 1 7 = none ↔ (7 : Nat) = 0) ∧
    (∃ s1 r, unstake cexS 1 7 = some (s1, true, r)) ∧
    unstake cexS 2 7 = some (cexS, false, 0) :=
  ⟨(unstake_error_handling cexS 1 7).1,
   (unstake_error_handling cexS 1 7).2.1 (by decide) 10 rfl,
   (unstake_error_handling cexS 2 7).2.2 (by decide) rfl⟩

end Staking


namespace Malborn

/-- A successful burn_tokens_internal leaves the status field unchanged. -/
theorem burn_tokens_internal_status {s s' : MalbornClubContract} {a amt : Nat}
    (h : burn_tokens_internal s a amt = some s') : s'.status = s.status := by
  unfold burn_tokens_internal at h
  split at h
  · exact Option.noConfusion h
  · split at h
    · exact Option.noConfusion h
    · split at h
      · exact Option.noConfusion h
      · injection h with h; subst h; rfl

/-- A successful mint_tokens leaves the status field unchanged. -/
theorem mint_tokens_status {s s' : MalbornClubContract} {g a amt r : Nat}
    (h : mint_tokens s g a amt = some (s', r)) : s'.status = s.status := by
  unfold mint_tokens at h
  split at h
  · exact Option.noConfusion h
  · split at h
    · exact Option.noConfusion h
    · split at h
      · exact Option.noConfusion h
      · split at h
        · split at h
          · exact Option.noConfusion h
          · injection h with h
            have h1 : _ = s' := congrArg Prod.fst h
            subst h1; rfl
        · injection h with h
          have h1 : _ = s' := congrArg Prod.fst h
          subst h1; rfl

/-- A successful burn_tokens leaves the status field unchanged. -/
theorem burn_tokens_status {s s' : MalbornClubContract} {g a amt : Nat}
    (h : burn_tokens s g a amt = some s') : s'.status = s.status := by
  unfold burn_tokens at h
  split at h
  · exact Option.noConfusion h
  · split at h
    · exact Option.noConfusion h
    · exact burn_tokens_internal_status h

/-- A successful register_for_event leaves the status field unchanged. -/
theorem register_for_event_status {s s' : MalbornClubContract} {g : Nat}
    (h : register_for_event s g = some s') : s'.status = s.status := by
  unfold register_for_event at h
  split at h
  · exact Option.noConfusion h
  · split at h
    · exact Option.noConfusion h
    · split at h
      · exact Option.noConfusion h
      · split at h
        · exact Option.noConfusion h
        · exact burn_tokens_internal_status h

/-- A successful upgrade_token_name_symbol leaves the status field unchanged. -/
theorem upgrade_status {s s' : MalbornClubContract} {g : Nat} {n y : String}
    (h : upgrade_token_name_symbol s g n y = some s') : s'.status = s.status := by
  unfold upgrade_token_name_symbol at h
  split at h
  · exact Option.noConfusion h
  · split at h
    · injection h with h; subst h; rfl
    · injection h with h; subst h; rfl

/-- A successful add_to_blocklist leaves the status field unchanged. -/
theorem add_to_blocklist_status {s s' : MalbornClubContract} {g a : Nat}
    (h : add_to_blocklist s g a = some s') : s'.status = s.status := by
  unfold add_to_blocklist at h
  split at h
  · exact Option.noConfusion h
  · split at h
    · exact Option.noConfusion h
    · injection h with h; subst h; rfl

/-- A successful remove_from_blocklist leaves the status field unchanged. -/
theorem remove_from_blocklist_status {s s' : MalbornClubContract} {g a : Nat}
    (h : remove_from_blocklist s g a = some s') : s'.status = s.status := by
  unfold remove_from_blocklist at h
  split at h
  · exact Option.noConfusion h
  · split at h
    · exact Option.noConfusion h
    · injection h with h; subst h; rfl

/-- A successful pause sets the status to Paused. -/
theorem pause_status {s s' : MalbornClubContract} {g : Nat}
    (h : pause s g = some s') : s'.status = ContractStatus.Paused := by
  unfold pause at h
  split at h
  · exact Option.noConfusion h
  · injection h with h; subst h; rfl

/-- A successful resume sets the status to Paused as well. -/
theorem resume_status {s s' : MalbornClubContract} {g : Nat}
    (h : resume s g = some s') : s'.status = ContractStatus.Paused := by
  unfold resume at h
  split at h
  · exact Option.noConfusion h
  · injection h with h; subst h; rfl

/-- A successful set_owner leaves the status field unchanged. -/
theorem set_owner_status {s s' : MalbornClubContract} {g n : Nat}
    (h : set_owner s g n = some s') : s'.status = s.status := by
  unfold set_owner at h
  split at h
  · exact Option.noConfusion h
  · injection h with h; subst h; rfl

/-- A successful set_registration_fee_denominator leaves the status field
unchanged. -/
theorem set_denominator_status {s s' : MalbornClubContract} {g n : Nat}
    (h : set_registration_fee_denominator s g n = some s') : s'.status = s.status := by
  unfold set_registration_fee_denominator at h
  split at h
  · exact Option.noConfusion h
  · injection h with h; subst h; rfl

/-- A successful set_associated_contract leaves the status field unchanged. -/
theorem set_associated_status {s s' : MalbornClubContract} {g a : Nat}
    (h : set_associated_contract s g a = some s') : s'.status = s.status := by
  unfold set_associated_contract at h
  split at h
  · exact Option.noConfusion h
  · injection h with h; subst h; rfl

/-- A successful get_symbol leaves the status field unchanged. -/
theorem get_symbol_status {s s' : MalbornClubContract} {r : String}
    (h : get_symbol s = some (s', r)) : s'.status = s.status := by
  unfold get_symbol at h
  split at h
  · exact Option.noConfusion h
  · split at h
    · exact Option.noConfusion h
    · injection h with h
      have h1 : _ = s' := congrArg Prod.fst h
      subst h1; rfl

/-- A successful get_name leaves the status field unchanged. -/
theorem get_name_status {s s' : MalbornClubContract} {r : String}
    (h : get_name s = some (s', r)) : s'.status = s.status := by
  unfold get_name at h
  split at h
  · exact Option.noConfusion h
  · split at h
    · exact Option.noConfusion h
    · injection h with h
      have h1 : _ = s' := congrArg Prod.fst h
      subst h1; rfl

/-- A successful get_decimals leaves the status field unchanged. -/
theorem get_decimals_status {s s' : MalbornClubContract} {r : Nat}
    (h : get_decimals s = some (s', r)) : s'.status = s.status := by
  unfold get_decimals at h
  split at h
  · exact Option.noConfusion h
  · split at h
    · exact Option.noConfusion h
    · injection h with h
      have h1 : _ = s' := congrArg Prod.fst h
      subst h1; rfl

/-- A successful ft_transfer leaves the status field unchanged. -/
theorem ft_transfer_status {s s' : MalbornClubContract} {a b c : Nat}
    (h : ft_transfer s a b c = some s') : s'.status = s.status := by
  unfold ft_transfer at h
  split at h
  · exact Option.noConfusion h
  · split at h
    · exact Option.noConfusion h
    · split at h
      · exact Option.noConfusion h
      · obtain ⟨t, _, hf⟩ := Option.map_eq_some'.mp h
        subst hf; rfl

/-- A successful ft_transfer_call leaves the status field unchanged. -/
theorem ft_transfer_call_status {s s' : MalbornClubContract} {a b c : Nat}
    (h : ft_transfer_call s a b c = some s') : s'.status = s.status := by
  unfold ft_transfer_call at h
  split at h
  · exact Option.noConfusion h
  · split at h
    · exact Option.noConfusion h
    · obtain ⟨t, _, hf⟩ := Option.map_eq_some'.mp h
      subst hf; rfl

/-- ft_resolve_transfer leaves the status field unchanged. -/
theorem ft_resolve_status {s s' : MalbornClubContract} {a b c d : Nat}
    (h : ft_resolve_transfer s a b c d = s') : s'.status = s.status := by
  subst h
  cases hacc : s.malborn_token.accounts a <;> simp [ft_resolve_transfer, hacc]

/-- storage_deposit leaves the status field unchanged. -/
theorem storage_deposit_status {s s' : MalbornClubContract} {a : Nat}
    (h : storage_deposit s a = s') : s'.status = s.status := by
  subst h
  cases hacc : s.malborn_token.accounts a <;> simp [storage_deposit, hacc]

/-- A successful storage_unregister leaves the status field unchanged. -/
theorem storage_unregister_status {s s' : MalbornClubContract} {a : Nat}
    {f r : Bool} (h : storage_unregister s a f = some (s', r)) :
    s'.status = s.status := by
  unfold storage_unregister at h
  split at h
  · injection h with h
    have h1 : _ = s' := congrArg Prod.fst h
    subst h1; rfl
  · split at h
    · injection h with h
      have h1 : _ = s' := congrArg Prod.fst h
      subst h1; rfl
    · exact Option.noConfusion h

/-- Every successful entry-point call either preserves the status or sets it
to Paused; no call ever writes Working. -/
theorem step_status {s s' : MalbornClubContract} (h : Step s s') :
    s'.status = s.status ∨ s'.status = ContractStatus.Paused := by
  cases h with
  | mint_step g a amt r h => exact Or.inl (mint_tokens_status h)
  | burn_step g a amt h => exact Or.inl (burn_tokens_status h)
  | register_step g h => exact Or.inl (register_for_event_status h)
  | upgrade_step g n y h => exact Or.inl (upgrade_status h)
  | add_blocklist_step g a h => exact Or.inl (add_to_blocklist_status h)
  | remove_blocklist_step g a h => exact Or.inl (remove_from_blocklist_status h)
  | pause_step g h => exact Or.inr (pause_status h)
  | resume_step g h => exact Or.inr (resume_status h)
  | set_owner_step g n h => exact Or.inl (set_owner_status h)
  | set_denominator_step g d h => exact Or.inl (set_denominator_status h)
  | set_associated_step g a h => exact Or.inl (set_associated_status h)
  | get_symbol_step r h => exact Or.inl (get_symbol_status h)
  | get_name_step r h => exact Or.inl (get_name_status h)
  | get_decimals_step r h => exact Or.inl (get_decimals_status h)
  | ft_transfer_step a b c h => exact Or.inl (ft_transfer_status h)
  | ft_transfer_call_step a b c h => exact Or.inl (ft_transfer_call_status h)
  | ft_resolve_step a b c d h => exact Or.inl (ft_resolve_status h)
  | storage_deposit_step a h => exact Or.inl (storage_deposit_status h)
  | storage_unregister_step a f r h => exact Or.inl (storage_unregister_status h)

/-- Claim C5: pausing MalbornClubContract is permanent: once pause succeeds,
the status is Paused in every state reachable by any sequence of successful
entry-point calls, because resume also writes Paused and no entry point ever
writes Working after initialization. -/
theorem pause_permanent (s s1 s2 : MalbornClubContract) (signer : Nat)
    (hp : pause s signer = some s1)
    (hr : Relation.ReflTransGen Step s1 s2) :
    s2.status = ContractStatus.Paused := by
  have h1 : s1.status = ContractStatus.Paused := pause_status hp
  induction hr with
  | refl => exact h1
  | tail _ hstep ih =>
    rcases step_status hstep with h | h
    · rw [h]; exact ih
    · exact h

/-- Witness for C5: pausing the concrete sample contract and taking the
empty sequence of further calls leaves it Paused. -/
theorem pause_permanent_witness : pausedClub.status = ContractStatus.Paused :=
  pause_permanent sampleClub pausedClub pausedClub 2 rfl Relation.ReflTransGen.refl

end Malborn

namespace Malborn

/-- Claim C6 counterexample: in the concrete paused state the metadata is
present, yet get_symbol panics instead of returning the symbol, so the
claim's unconditional quantification over every state with metadata present
fails. -/
theorem metadata_getters_counterexample :
    pausedClub.token_metadata = some malbornMetadata ∧
    get_symbol pausedClub = none ∧ get_name pausedClub = none ∧
    get_decimals pausedClub = none :=
  ⟨rfl, rfl, rfl, rfl⟩

/-- Claim C6 (amended): for every non-paused contract state in which token
metadata is present, get_symbol (and get_name, and get_decimals) returns the
corresponding field but removes the metadata from storage (take without
replace), so any subsequent call to ft_metadata, get_symbol, get_name or
get_decimals panics. -/
theorem metadata_getters_consume (s : MalbornClubContract)
    (m : FungibleTokenMetadata) (hm : s.token_metadata = some m)
    (hnp : s.status ≠ ContractStatus.Paused) :
    get_symbol s = some ({ s with token_metadata := none }, m.symbol) ∧
    get_name s = some ({ s with token_metadata := none }, m.name) ∧
    get_decimals s = some ({ s with token_metadata := none }, m.decimals) ∧
    ft_metadata { s with token_metadata := none } = none ∧
    get_symbol { s with token_metadata := none } = none ∧
    get_name { s with token_metadata := none } = none ∧
    get_decimals { s with token_metadata := none } = none := by
  refine ⟨?_, ?_, ?_, rfl, ?_, ?_, ?_⟩ <;>
    simp [get_symbol, get_name, get_decimals, hm, hnp]

/-- Witness for the amended C6 at the concrete working sample contract. -/
theorem metadata_getters_consume_witness :
    get_symbol sampleClub = some ({ sampleClub with token_metadata := none }, "MAL") ∧
    ft_metadata { sampleClub with token_metadata := none } = none ∧
    get_symbol { sampleClub with token_metadata := none } = none := by
  have h := metadata_getters_consume sampleClub malbornMetadata rfl (by decide)
  exact ⟨h.1, h.2.2.2.1, h.2.2.2.2.1⟩

/-- Claim C7 counterexample: in the concrete paused state account 2 has a
recorded balance and a total supply is recorded, yet ft_balance_of and
ft_total_supply both panic instead of returning them. -/
theorem ft_views_counterexample :
    pausedClub.malborn_token.accounts 2 = some 1000000000 ∧
    pausedClub.malborn_token.total_supply = 1000000000 ∧
    ft_balance_of pausedClub 2 = none ∧ ft_total_supply pausedClub = none :=
  ⟨rfl, rfl, rfl, rfl⟩

/-- Claim C7 (amended): ft_balance_of and ft_total_supply return the recorded
balance (0 for unregistered accounts) and the recorded total supply only when
the status is not Paused; when the status is Paused both panic, breaking the
FT standard's view semantics. -/
theorem ft_views_amended (s : MalbornClubContract) (a : Nat) :
    (s.status ≠ ContractStatus.Paused →
      ft_balance_of s a = some ((s.malborn_token.accounts a).getD 0) ∧
      ft_total_supply s = some s.malborn_token.total_supply) ∧
    (s.status = ContractStatus.Paused →
      ft_balance_of s a = none ∧ ft_total_supply s = none) := by
  constructor <;> intro h <;> simp [ft_balance_of, ft_total_supply, h]

/-- Witness for the amended C7 at the concrete working and paused sample
contracts. -/
theorem ft_views_amended_witness :
    (ft_balance_of sampleClub 2 = some ((sampleClub.malborn_token.accounts 2).getD 0) ∧
     ft_total_supply sampleClub = some sampleClub.malborn_token.total_supply) ∧
    (ft_balance_of pausedClub 2 = none ∧ ft_total_supply pausedClub = none) :=
  ⟨(ft_views_amended sampleClub 2).1 (by decide), (ft_views_amended pausedClub 2).2 rfl⟩

/-- Claim C8: minting to an account that has no entry in the accounts map
increases total_supply by exactly amount, returns the new total_supply, and
leaves every account balance unchanged; a successful call also implies the
signer is the owner and the contract is not paused. -/
theorem mint_tokens_frame (s s' : MalbornClubContract)
    (signer account_id amount ret : Nat)
    (hacct : s.malborn_token.accounts account_id = none)
    (hm : mint_tokens s signer account_id amount = some (s', ret)) :
    ret = s.malborn_token.total_supply + amount ∧
    s'.malborn_token.total_supply = s.malborn_token.total_supply + amount ∧
    (∀ a, s'.malborn_token.accounts a = s.malborn_token.accounts a) ∧
    signer = s.owner_id ∧ s.status ≠ ContractStatus.Paused := by
  have howner : signer = s.owner_id := by
    by_contra hc
    simp [mint_tokens, hc] at hm
  have hpause : s.status ≠ ContractStatus.Paused := by
    intro hc
    simp [mint_tokens, hc] at hm
  have heval : mint_tokens s signer account_id amount =
      if signer ≠ s.owner_id then none
      else if s.status = ContractStatus.Paused then none
      else if U128MAX < s.malborn_token.total_supply + amount then none
      else some ({ s with malborn_token :=
        { s.malborn_token with
            total_supply := s.malborn_token.total_supply + amount } },
        s.malborn_token.total_supply + amount) := by
    unfold mint_tokens
    rw [hacct]
  rw [heval, if_neg (by simp [howner]), if_neg hpause] at hm
  by_cases hof : U128MAX < s.malborn_token.total_supply + amount
  · rw [if_pos hof] at hm
    exact Option.noConfusion hm
  · rw [if_neg hof] at hm
    injection hm with hm
    have h1 : _ = s' := congrArg Prod.fst hm
    have h2 : _ = ret := congrArg Prod.snd hm
    subst h1
    exact ⟨h2.symm, rfl, fun a => rfl, howner, hpause⟩

/-- Witness for C8: the owner mints 5 tokens to unregistered account 7 of
the concrete sample contract. -/
theorem mint_tokens_frame_witness :
    (1000000005 : Nat) = sampleClub.malborn_token.total_supply + 5 ∧
    mintedClub.malborn_token.total_supply = sampleClub.malborn_token.total_supply + 5 ∧
    (∀ a, mintedClub.malborn_token.accounts a = sampleClub.malborn_token.accounts a) ∧
    (2 : Nat) = sampleClub.owner_id ∧ sampleClub.status ≠ ContractStatus.Paused :=
  mint_tokens_frame sampleClub mintedClub 2 7 5 1000000005 rfl rfl

/-- Claim C10: burn_tokens panics exactly when the signer is not the owner,
the contract is paused, total_supply is less than amount, the account is
unregistered, or the account's balance is less than amount; a successful
call decreases both the account's balance and total_supply by exactly
amount and changes nothing else.  A panic (None) produces no state at all,
matching the NEAR runtime's rollback of the transaction. -/
theorem burn_tokens_spec (s : MalbornClubContract)
    (signer account_id amount b : Nat) :
    (burn_tokens s signer account_id amount = none ↔
      signer ≠ s.owner_id ∨ s.status = ContractStatus.Paused ∨
      s.malborn_token.total_supply < amount ∨
      s.malborn_token.accounts account_id = none ∨
      ∃ ub, s.malborn_token.accounts account_id = some ub ∧ ub < amount) ∧
    (∀ s', s.malborn_token.accounts account_id = some b →
      burn_tokens s signer account_id amount = some s' →
      s'.malborn_token.accounts account_id = some (b - amount) ∧ amount ≤ b ∧
      s'.malborn_token.total_supply = s.malborn_token.total_supply - amount ∧
      amount ≤ s.malborn_token.total_supply ∧
      (∀ a, a ≠ account_id → s'.malborn_token.accounts a = s.malborn_token.accounts a) ∧
      s'.owner_id = s.owner_id ∧ s'.status = s.status ∧
      s'.token_metadata = s.token_metadata ∧ s'.block_list = s.block_list) := by
  constructor
  · by_cases h1 : signer = s.owner_id
    · by_cases h2 : s.status = ContractStatus.Paused
      · simp [burn_tokens, h1, h2]
      · by_cases h3 : s.malborn_token.total_supply < amount
        · simp [burn_tokens, burn_tokens_internal, h1, h2, h3]
        · cases hacc : s.malborn_token.accounts account_id with
          | none => simp [burn_tokens, burn_tokens_internal, h1, h2, h3, hacc]
          | some ub =>
            by_cases h4 : ub < amount
            · simp [burn_tokens, burn_tokens_internal, h1, h2, h3, hacc, h4]
            · simp [burn_tokens, burn_tokens_internal, h1, h2, h3, hacc, h4]
    · simp [burn_tokens, h1]
  · intro s' hb hsome
    have h1 : signer = s.owner_id := by
      by_contra hc
      simp [burn_tokens, hc] at hsome
    have h2 : s.status ≠ ContractStatus.Paused := by
      intro hc
      simp [burn_tokens, hc] at hsome
    have h3 : ¬ s.malborn_token.total_supply < amount := by
      intro hc
      simp [burn_tokens, burn_tokens_internal, h1, h2, hc] at hsome
    have h4 : ¬ b < amount := by
      intro hc
      simp [burn_tokens, burn_tokens_internal, h1, h2, h3, hb, hc] at hsome
    simp only [burn_tokens, burn_tokens_internal, h1, h2, h3, h4, hb, ne_eq,
      not_true_eq_false, if_false, Option.some.injEq, ite_false] at hsome
    subst hsome
    refine ⟨by simp [tokenInsert], Nat.not_lt.mp h4, rfl, Nat.not_lt.mp h3,
      fun a ha => by simp [tokenInsert, ha], rfl, rfl, rfl, rfl⟩

/-- Witness for C10: the owner burns 5 of its own 1000000000 tokens in the
concrete sample contract, and a burn attempt on the paused contract panics. -/
theorem burn_tokens_spec_witness :
    (burnedClub.malborn_token.accounts 2 = some (1000000000 - 5) ∧
     burnedClub.malborn_token.total_supply = sampleClub.malborn_token.total_supply - 5) ∧
    (burn_tokens pausedClub 2 2 5 = none) := by
  have h := (burn_tokens_spec sampleClub 2 2 5 1000000000).2 burnedClub rfl rfl
  have hp := (burn_tokens_spec pausedClub 2 2 5 1000000000).1
  exact ⟨⟨h.1, h.2.2.1⟩, hp.mpr (Or.inr (Or.inl rfl))⟩

end Malborn

namespace PausePallet

/-- Claim C3 (spec-modelled): the pause pallet's boolean toggle is reversed
into a no-op: after a successful toggle by an authorized origin the Paused
value equals its value before the call, and after a successful unpause an
already-true Paused value remains true. -/
theorem toggle_unpause_noop (o : PalletOrigin) (s s' : PauseState) :
    (toggle o s = some s' → s'.paused = s.paused) ∧
    (unpause o s = some s' → s.paused = true → s'.paused = true) := by
  constructor
  · intro h
    unfold toggle at h
    split at h
    · injection h with h; subst h; rfl
    · exact Option.noConfusion h
  · intro h hp
    unfold unpause at h
    split at h
    · injection h with h; subst h; exact hp
    · exact Option.noConfusion h

/-- Witness for C3: toggle from Root and unpause from the Admin account at
the concrete paused-true state both leave Paused true. -/
theorem toggle_unpause_noop_witness :
    (PauseState.mk true).paused = (PauseState.mk true).paused ∧
    (PauseState.mk true).paused = true :=
  ⟨(toggle_unpause_noop PalletOrigin.Root ⟨true⟩ ⟨true⟩).1 rfl,
   (toggle_unpause_noop (PalletOrigin.Signed 1) ⟨true⟩ ⟨true⟩).2 rfl rfl⟩

end PausePallet

namespace Game

/-- Claim C4 (spec-modelled): for every user whose credits are less than the
level_credits computed from credits_to_burn and credits_per_level,
user_level_up fails with the integer underflow of the subtraction performed
before any balance validation, not with the insufficient-credits rejection a
prior balance check would produce. -/
theorem user_level_up_underflow (credits credits_to_burn credits_per_level : Nat)
    (h : credits < level_credits credits_to_burn credits_per_level) :
    user_level_up credits credits_to_burn credits_per_level =
      Except.error LevelUpError.IntegerUnderflow := by
  unfold user_level_up checkedSub
  simp [Nat.not_le.mpr h]

/-- Witness for C4 at the integration test's concrete input: 5 credits,
credits_to_burn 50, credits_per_level 10, where level_credits is 30. -/
theorem user_level_up_underflow_witness :
    user_level_up 5 50 10 = Except.error LevelUpError.IntegerUnderflow :=
  user_level_up_underflow 5 50 10 (by decide)

end Game
